import Mathlib

/-!
# Verification of the cognito multi-agent research pipeline

Shallow embedding of the pipeline code under `src/` (the orchestrator
`agents/research_orchestrator.py`, the stage agents
`agents/analyst_agent.py`, `agents/critic_agent.py`,
`agents/synthesizer_agent.py`, the retry wrapper `utils/retry_utils.py`
and the data model `utils/shared_types.py`), together with proofs about
the embedded definitions.

External effects (LLM completions, response parsing by pydantic, remote
desktop automation) are modelled as oracle parameters: a stage function
takes, besides its data inputs, a function describing the outcome of each
external call.  Python exceptions are modelled with `Except String`.
-/

namespace Cognito

/-! ## Data model (`utils/shared_types.py`)

Python `dict`s (insertion ordered, unique keys) are embedded as
association lists `List (String × String)`; the uniqueness invariant is
carried as a hypothesis where a proof needs it. -/

/-- Structure `PaperMetadata` from `utils/shared_types.py`. -/
structure PaperMetadata where
  title : String
  authors : List String
  abstract : String
  arxiv_id : String
  pdf_url : String
deriving Repr, DecidableEq

/-- Structure `StructuredContent` from `utils/shared_types.py` (output of the
Extract stage).  Each figure is a dict such as
`{"caption": ..., "description": ...}`. -/
structure StructuredContent where
  abstract : String
  introduction : String
  methodology : String
  results : String
  conclusion : String
  full_text : String
  figures : List (List (String × String)) := []
deriving Repr, DecidableEq

/-- Structure `AnalysisResult` from `utils/shared_types.py` (output of the Analyze
and Consolidate stages). -/
structure AnalysisResult where
  key_claims : List String
  metrics_and_results : List (String × String)
  methodology_summary : String
  mathematical_derivations : List String
  tldr : String
  eli5 : String
deriving Repr, DecidableEq

/-- Structure `Critique` from `utils/shared_types.py` (output of the Critique
stage); each source is a dict such as `{"title": ..., "url": ...}`. -/
structure Critique where
  corroborating_sources : List (List (String × String))
  conflicting_sources : List (List (String × String))
  synthesis : String
deriving Repr, DecidableEq

/-- Structure `PaperAnalysisState` from `utils/shared_types.py`: the per-paper
pipeline progress record. -/
structure PaperAnalysisState where
  metadata : PaperMetadata
  structured_content : Option StructuredContent := none
  analysis : Option AnalysisResult := none
  critique : Option Critique := none
  final_report : Option String := none
deriving Repr, DecidableEq

/-! ## Python dict operations on the association-list embedding -/

/-- Python `d[k]` / `d.get(k)`: the value bound to the first entry with
key `k`, if any. -/
def dictGet (k : String) : List (String × String) → Option String
  | [] => none
  | p :: t => if p.1 = k then some p.2 else dictGet k t

/-- Python `d[k] = v`: replace the value of the entry holding `k`
in place, or append a new entry at the end (dicts keep insertion
order). -/
def dictSet : List (String × String) → String → String → List (String × String)
  | [], k, v => [(k, v)]
  | p :: t, k, v => if p.1 = k then (k, v) :: t else p :: dictSet t k v

/-- Python `d.update(m)`: set every entry of `m`, left to right. -/
def dictUpdate (d m : List (String × String)) : List (String × String) :=
  m.foldl (fun acc p => dictSet acc p.1 p.2) d

/-- Python `list(dict.fromkeys(xs))`: insert the keys in order, a key
already seen is skipped (its first position is kept). -/
def dedupKeepFirst (xs : List String) : List String :=
  xs.foldl (fun acc x => if x ∈ acc then acc else acc ++ [x]) []

/-! ## Retry wrapper (`utils/retry_utils.py`)

`retry_with_exponential_backoff` wraps an operation and invokes it up to
`max_retries + 1` times.  An invocation of the wrapped operation either
returns a value, raises an error in the decorator's allow-list
(`exceptions`), or raises some other error.  The operation is modelled as
a function from the attempt index to its outcome.  The `time.sleep`
between attempts has no observable effect on the result or the
invocation count, so the embedding records only those two. -/

/-- Outcome of one invocation of the wrapped operation. -/
inductive CallOutcome (E A : Type) where
  | ok (v : A)
  | allowed (e : E)
  | other (e : E)
deriving Repr, DecidableEq

/-- Embedding of the `for attempt in range(max_retries + 1)` loop of the wrapper,
started at `attempt` with `fuel` further attempts permitted after the
current one.  Returns the final result together with how many times the
operation was invoked.  On the last attempt (`fuel = 0`) the result of
the operation is returned directly (a success returns, an allow-listed
error is re-raised by the `if attempt == max_retries: raise` branch);
errors outside the allow-list propagate immediately. -/
def retryFrom (op : Nat → CallOutcome E A) : Nat → Nat → Except E A × Nat
  | attempt, 0 =>
    match op attempt with
    | .ok v => (.ok v, 1)
    | .allowed e => (.error e, 1)
    | .other e => (.error e, 1)
  | attempt, fuel + 1 =>
    match op attempt with
    | .ok v => (.ok v, 1)
    | .other e => (.error e, 1)
    | .allowed _ =>
      let r := retryFrom op (attempt + 1) fuel
      (r.1, r.2 + 1)

/-- Wrapper `retry_with_exponential_backoff(max_retries)(op)` applied to a call:
run the attempt loop from attempt `0`. -/
def retryWithExponentialBackoff (max_retries : Nat) (op : Nat → CallOutcome E A) :
    Except E A × Nat :=
  retryFrom op 0 max_retries

lemma retryFrom_succeeds (op : Nat → CallOutcome E A) (v : A) :
    ∀ (N : Nat) (attempt fuel : Nat), N ≤ fuel →
      (∀ i < N, ∃ e, op (attempt + i) = .allowed e) →
      op (attempt + N) = .ok v →
      retryFrom op attempt fuel = (.ok v, N + 1) := by
  intro N
  induction N with
  | zero =>
    intro attempt fuel _ _ hsucc
    simp only [Nat.add_zero] at hsucc
    cases fuel <;> simp [retryFrom, hsucc]
  | succ n ih =>
    intro attempt fuel hle hfail hsucc
    obtain ⟨fuel', rfl⟩ : ∃ m, fuel = m + 1 := by
      cases fuel with
      | zero => omega
      | succ m => exact ⟨m, rfl⟩
    obtain ⟨e, he⟩ := hfail 0 (Nat.succ_pos n)
    simp only [Nat.add_zero] at he
    have hIH := ih (attempt + 1) fuel' (by omega)
      (fun i hi => by
        obtain ⟨e', he'⟩ := hfail (i + 1) (by omega)
        exact ⟨e', by simpa [Nat.add_assoc, Nat.add_comm 1 i] using he'⟩)
      (by simpa [Nat.add_assoc, Nat.add_comm 1 n] using hsucc)
    simp [retryFrom, he, hIH]

lemma retryFrom_exhausts (op : Nat → CallOutcome E A) (f : Nat → E)
    (hall : ∀ i, op i = .allowed (f i)) :
    ∀ (fuel attempt : Nat),
      retryFrom op attempt fuel = (.error (f (attempt + fuel)), fuel + 1) := by
  intro fuel
  induction fuel with
  | zero => intro attempt; simp [retryFrom, hall attempt]
  | succ n ih =>
    intro attempt
    have := ih (attempt + 1)
    simp only [retryFrom, hall attempt, this]
    have : attempt + 1 + n = attempt + (n + 1) := by omega
    rw [this]

/-- C3.  The retry wrapper's invocation counting, both halves of the
claim: an operation failing `N` times with an allow-listed error and then
succeeding is, for `max_retries ≥ N`, invoked exactly `N + 1` times and
its success value returned; an operation that always fails with an
allow-listed error is, for `max_retries = R`, invoked exactly `R + 1`
times and the wrapper re-raises the last error. -/
theorem C3_retry_wrapper_invocation_counts (E A : Type) :
    (∀ (op : Nat → CallOutcome E A) (N R : Nat) (v : A),
       N ≤ R →
       (∀ i < N, ∃ e, op i = .allowed e) →
       op N = .ok v →
       retryWithExponentialBackoff R op = (.ok v, N + 1)) ∧
    (∀ (op : Nat → CallOutcome E A) (R : Nat) (f : Nat → E),
       (∀ i, op i = .allowed (f i)) →
       retryWithExponentialBackoff R op = (.error (f R), R + 1)) := by
  constructor
  · intro op N R v hNR hfail hsucc
    exact retryFrom_succeeds op v N 0 R hNR (by simpa using hfail) (by simpa using hsucc)
  · intro op R f hall
    simpa using retryFrom_exhausts op f hall R 0

/-- Witness for C3 at a concrete operation: fails twice (allow-listed)
then succeeds, with `max_retries = 3`; and a second operation that
always fails, with `max_retries = 2`. -/
theorem C3_retry_wrapper_invocation_counts_witness :
    retryWithExponentialBackoff 3
        (fun i => if i < 2 then CallOutcome.allowed "rate limited" else .ok 42) =
      (Except.ok 42, 3) ∧
    retryWithExponentialBackoff 2
        (fun i => (CallOutcome.allowed (E := String) (A := Nat) (toString i))) =
      (Except.error "2", 3) := by
  constructor
  · exact (C3_retry_wrapper_invocation_counts String Nat).1
      (fun i => if i < 2 then CallOutcome.allowed "rate limited" else .ok 42)
      2 3 42 (by omega)
      (fun i hi => ⟨"rate limited", by simp [hi]⟩)
      (by simp)
  · exact (C3_retry_wrapper_invocation_counts String Nat).2
      (fun i => CallOutcome.allowed (toString i)) 2 (fun i => toString i)
      (fun i => rfl)

/-! ## Analyze stage (`agents/analyst_agent.py`)

`AnalystAgent.run` formats the analyst prompts from the structured
content and its persona, performs one retried LLM call
(`BaseAgent._call_llm`), and parses the response with
`AnalysisResult.model_validate_json`.  The LLM boundary is an oracle
`llm : String → String → Except String String` (system prompt, user
prompt ↦ response text or raised error, the retry wrapper already
applied), and pydantic JSON validation is an oracle
`parse : String → Except String AnalysisResult`. -/

/-- Function `get_analyst_system_prompt(persona)` from `agents/prompts.py`. -/
def getAnalystSystemPrompt (persona : String) : String :=
  "You are " ++ persona ++ ", an expert research analyst reviewing academic papers. \nYour role is to provide critical analysis from your unique perspective.\n\nAnalyze the paper and provide:\n1. Key claims and contributions\n2. Metrics and quantitative results\n3. Methodology summary\n4. Mathematical derivations (if any)\n5. A concise TL;DR\n6. An ELI5 (Explain Like I'm 5) summary\n\nReturn your analysis as valid JSON with this structure:\n\x7b\n    \"key_claims\": [\"claim1\", \"claim2\", ...],\n    \"metrics_and_results\": \x7b\"metric\": \"value\", ...\x7d,\n    \"methodology_summary\": \"...\",\n    \"mathematical_derivations\": [\"derivation1\", ...],\n    \"tldr\": \"...\",\n    \"eli5\": \"...\"\n\x7d"

/-- Template `ANALYST_USER_PROMPT.format(...)` as assembled by `AnalystAgent.run`
(the title argument is the fixed string "Research Paper Analysis"). -/
def analystUserPrompt (content : StructuredContent) (persona : String) : String :=
  "Please analyze the following research paper content:\n\nTitle: Research Paper Analysis\nAbstract: " ++ content.abstract
    ++ "\nIntroduction: " ++ content.introduction
    ++ "\nMethodology: " ++ content.methodology
    ++ "\nResults: " ++ content.results
    ++ "\nConclusion: " ++ content.conclusion
    ++ "\n\nProvide your analysis from the perspective of " ++ persona ++ "."

/-- The placeholder `AnalysisResult` returned by `AnalystAgent.run`'s
`except` branch ("Return minimal valid result on error"). -/
def analysisFailureResult : AnalysisResult :=
  { key_claims := ["Analysis failed due to error"]
    metrics_and_results := []
    methodology_summary := "Error during analysis"
    mathematical_derivations := []
    tldr := "Analysis could not be completed"
    eli5 := "There was a problem analyzing this paper" }

/-- Method `AnalystAgent.run`: one retried LLM call and one pydantic parse,
both inside the `try`; any error from either produces the placeholder
result instead of propagating (the function's return type records that
it cannot raise). -/
def analystRun (persona : String) (content : StructuredContent)
    (llm : String → String → Except String String)
    (parse : String → Except String AnalysisResult) : AnalysisResult :=
  match llm (getAnalystSystemPrompt persona) (analystUserPrompt content persona) with
  | .error _ => analysisFailureResult
  | .ok response_text =>
    match parse response_text with
    | .error _ => analysisFailureResult
    | .ok r => r

/-- C5.  For every content input and persona, whenever the Analyze
stage's remote call or its response parsing raises, `AnalystAgent.run`
returns (rather than propagating) an `AnalysisResult` carrying a single
key claim noting the failure, an empty metrics map, and failure text in
its summary fields. -/
theorem C5_analyze_never_raises_returns_placeholder
    (persona : String) (content : StructuredContent)
    (llm : String → String → Except String String)
    (parse : String → Except String AnalysisResult)
    (herr :
      (∃ e, llm (getAnalystSystemPrompt persona) (analystUserPrompt content persona)
          = .error e) ∨
      (∃ t e, llm (getAnalystSystemPrompt persona) (analystUserPrompt content persona)
          = .ok t ∧ parse t = .error e)) :
    (analystRun persona content llm parse).key_claims = ["Analysis failed due to error"] ∧
    (analystRun persona content llm parse).metrics_and_results = [] ∧
    (analystRun persona content llm parse).methodology_summary = "Error during analysis" ∧
    (analystRun persona content llm parse).mathematical_derivations = [] ∧
    (analystRun persona content llm parse).tldr = "Analysis could not be completed" ∧
    (analystRun persona content llm parse).eli5 = "There was a problem analyzing this paper" := by
  rcases herr with ⟨e, he⟩ | ⟨t, e, ht, he⟩
  · simp [analystRun, he, analysisFailureResult]
  · simp [analystRun, ht, he, analysisFailureResult]

/-- Witness for C5: a concrete content whose LLM call raises an API
error yields the placeholder fields. -/
theorem C5_analyze_never_raises_returns_placeholder_witness :
    (analystRun "The Skeptic"
        { abstract := "a", introduction := "i", methodology := "m",
          results := "r", conclusion := "c", full_text := "f" }
        (fun _ _ => .error "anthropic.APIError")
        (fun _ => .error "ParseError")).key_claims = ["Analysis failed due to error"] := by
  exact (C5_analyze_never_raises_returns_placeholder "The Skeptic"
    { abstract := "a", introduction := "i", methodology := "m",
      results := "r", conclusion := "c", full_text := "f" }
    (fun _ _ => .error "anthropic.APIError")
    (fun _ => .error "ParseError")
    (Or.inl ⟨"anthropic.APIError", rfl⟩)).1

/-! ## Ensemble fan-out (`research_orchestrator.py`, step 2)

`_process_single_paper` runs
`executor.map(analyze_with_persona, self.analysts)` on a
`ThreadPoolExecutor` and converts the result to a list.  `executor.map`
submits one task per analyst (in analyst order), the tasks complete in an
arbitrary order, each completion stores its result in the slot of the
task's submission index, and the map joins and yields the slots in
submission-index order.  The completion order is modelled as an explicit
list of slot indices. -/

/-- Completion of the task for slot `i`: store its value. -/
def poolWrite (slots : Nat → Option β) (i : Nat) (v : Option β) : Nat → Option β :=
  fun j => if j = i then v else slots j

/-- Result buffer after the tasks complete in the order given by
`order` (each entry an index into `xs`). -/
def poolSlots (f : α → β) (xs : List α) (order : List Nat) : Nat → Option β :=
  order.foldl (fun s i => poolWrite s i ((xs[i]?).map f)) (fun _ => none)

/-- Collected output of `executor.map f xs`, read out in submission
order after all tasks completed in the order `order`. -/
def executorMap (f : α → β) (xs : List α) (order : List Nat) : List (Option β) :=
  (List.range xs.length).map (poolSlots f xs order)

/-- Steps 2 of `_process_single_paper`: the analyst ensemble over the
fixed persona list, one `AnalystAgent.run` per persona on the same
structured content, collected by `executor.map`. -/
def runAnalystEnsemble (personas : List String) (content : StructuredContent)
    (llm : String → String → Except String String)
    (parse : String → Except String AnalysisResult)
    (order : List Nat) : List (Option AnalysisResult) :=
  executorMap (fun p => analystRun p content llm parse) personas order

lemma poolSlots_eq (f : α → β) (xs : List α) :
    ∀ (order : List Nat) (s : Nat → Option β) (j : Nat),
      order.foldl (fun s i => poolWrite s i ((xs[i]?).map f)) s j =
        if j ∈ order then (xs[j]?).map f else s j := by
  intro order
  induction order with
  | nil => intro s j; simp
  | cons i rest ih =>
    intro s j
    simp only [List.foldl_cons, ih, List.mem_cons]
    by_cases hjr : j ∈ rest
    · simp [hjr]
    · by_cases hji : j = i
      · subst hji; simp [hjr, poolWrite]
      · simp [hjr, hji, poolWrite]

lemma executorMap_eq_map (f : α → β) (xs : List α) (order : List Nat)
    (hperm : order.Perm (List.range xs.length)) :
    executorMap f xs order = xs.map (fun x => some (f x)) := by
  apply List.ext_getElem
  · simp [executorMap]
  · intro i h1 h2
    have hi : i < xs.length := by simpa [executorMap] using h1
    have hmem : i ∈ order := by
      rw [hperm.mem_iff]
      simpa using hi
    simp [executorMap, poolSlots, poolSlots_eq, hmem, hi,
      List.getElem?_eq_getElem]

/-- C7.  For every structured content and ordered persona list, the
ensemble fan-out yields exactly one `AnalysisResult` per persona, in
persona order, for every completion order of the concurrent analyses
(every permutation of the submitted task indices); since
`AnalystAgent.run` is total there is no partial-result case. -/
theorem C7_fanout_one_result_per_persona_in_order
    (personas : List String) (content : StructuredContent)
    (llm : String → String → Except String String)
    (parse : String → Except String AnalysisResult)
    (order : List Nat)
    (hperm : order.Perm (List.range personas.length)) :
    runAnalystEnsemble personas content llm parse order =
      personas.map (fun p => some (analystRun p content llm parse)) := by
  exact executorMap_eq_map _ personas order hperm

/-- Witness for C7: three personas completing in the order 2, 0, 1
still collect in persona order. -/
theorem C7_fanout_one_result_per_persona_in_order_witness :
    runAnalystEnsemble ["The Skeptic", "The Proponent", "The Pragmatist"]
        { abstract := "a", introduction := "i", methodology := "m",
          results := "r", conclusion := "c", full_text := "f" }
        (fun _ _ => .error "APIError") (fun _ => .error "ParseError")
        [2, 0, 1] =
      [some analysisFailureResult, some analysisFailureResult,
        some analysisFailureResult] := by
  have := C7_fanout_one_result_per_persona_in_order
    ["The Skeptic", "The Proponent", "The Pragmatist"]
    { abstract := "a", introduction := "i", methodology := "m",
      results := "r", conclusion := "c", full_text := "f" }
    (fun _ _ => .error "APIError") (fun _ => .error "ParseError")
    [2, 0, 1] (by decide)
  rw [this]
  simp [analystRun, analysisFailureResult]

/-! ## Consolidate stage (`research_orchestrator.py`, `consolidate_analyses`)

The function first serializes the analyses
(`json.dumps(analysis.model_dump(), ...)` inside an f-string) and
formats the consolidation prompt; only then does its `try` begin, whose
body performs the LLM call and the pydantic parse and whose `except`
branch performs the deterministic local merge ("Fall back to original
simple consolidation logic").  The module `research_orchestrator.py`
contains no `import json` (and no `import anthropic`), so evaluating the
f-string raises `NameError: name 'json' is not defined` before the
`try` is reached, and that error propagates to the caller. -/

/-- Accumulators of the local-merge loop of `consolidate_analyses`
(the six `consolidated_*` locals). -/
structure MergeAcc where
  key_claims : List String := []
  metrics_and_results : List (String × String) := []
  methodology_summary : String := ""
  mathematical_derivations : List String := []
  tldr : String := ""
  eli5 : String := ""
deriving Repr, DecidableEq

/-- One iteration of `for analysis in individual_analyses` in the
fallback branch of `consolidate_analyses`. -/
def mergeStep (acc : MergeAcc) (a : AnalysisResult) : MergeAcc :=
  { key_claims := acc.key_claims ++ a.key_claims
    metrics_and_results := dictUpdate acc.metrics_and_results a.metrics_and_results
    methodology_summary :=
      if acc.methodology_summary = "" ∧ a.methodology_summary ≠ "" then
        a.methodology_summary
      else acc.methodology_summary
    mathematical_derivations := acc.mathematical_derivations ++ a.mathematical_derivations
    tldr := if acc.tldr = "" ∧ a.tldr ≠ "" then a.tldr else acc.tldr
    eli5 := if acc.eli5 = "" ∧ a.eli5 ≠ "" then a.eli5 else acc.eli5 }

/-- The deterministic local merge: the fallback (`except`) branch of
`consolidate_analyses`, i.e. the accumulator loop followed by
`list(dict.fromkeys(...))` on the two list fields. -/
def localMerge (individual_analyses : List AnalysisResult) : AnalysisResult :=
  let acc := individual_analyses.foldl mergeStep {}
  { key_claims := dedupKeepFirst acc.key_claims
    metrics_and_results := acc.metrics_and_results
    methodology_summary := acc.methodology_summary
    mathematical_derivations := dedupKeepFirst acc.mathematical_derivations
    tldr := acc.tldr
    eli5 := acc.eli5 }

/-- Serialization step `analyses_text = "\n\n---\n\n".join(...)` of
`consolidate_analyses`: the f-string calls `json.dumps`, a name the
module never imports, so the step raises `NameError` for every input. -/
def consolidateAnalysesPrompt (_individual_analyses : List AnalysisResult) :
    Except String String :=
  .error "NameError: name 'json' is not defined"

/-- Method `consolidate_analyses`: serialize the analyses and format
the prompt (both before the `try`, so an error there propagates), then
try the LLM consolidation, falling back to `localMerge` on any error
inside the `try`. -/
def consolidateAnalyses (llm : String → Except String String)
    (parse : String → Except String AnalysisResult)
    (individual_analyses : List AnalysisResult) : Except String AnalysisResult :=
  match consolidateAnalysesPrompt individual_analyses with
  | .error e => .error e
  | .ok user_prompt =>
    match llm user_prompt with
    | .ok result_text =>
      match parse result_text with
      | .ok consolidated => .ok consolidated
      | .error _ => .ok (localMerge individual_analyses)
    | .error _ => .ok (localMerge individual_analyses)

/-! ### Spec-side characterizations of the local merge

These definitions follow the words of the specification ("concatenated
preserving first-seen order with exact-string duplicates removed",
"later analyses' keys overwrite earlier ones on collision", "first
non-empty value encountered in input order") and are proved to coincide
with the source-derived `localMerge`. -/

/-- Duplicates removed keeping the first occurrence: keep the head and
drop its later duplicates, recursively. -/
def keepFirst : List String → List String
  | [] => []
  | x :: t => x :: keepFirst (t.filter (fun y => y ≠ x))
termination_by l => l.length
decreasing_by
  simpa using Nat.lt_succ_of_le (List.length_filter_le _ t)

/-- First non-empty value encountered in input order (empty string when
there is none). -/
def firstNonEmpty (l : List String) : String :=
  (l.find? (fun s => s ≠ "")).getD ""

/-- Helper: the shape of the `if not consolidated and analysis.x`
accumulation, lifted to a fold over the projected strings. -/
def strFold (l : List String) (acc : String) : String :=
  l.foldl (fun m s => if m = "" ∧ s ≠ "" then s else m) acc

lemma strFold_eq (l : List String) :
    ∀ acc, strFold l acc = if acc = "" then firstNonEmpty l else acc := by
  induction l with
  | nil =>
    intro acc
    by_cases h : acc = "" <;> simp [strFold, firstNonEmpty, h]
  | cons s t ih =>
    intro acc
    by_cases hacc : acc = ""
    · subst hacc
      by_cases hs : s = ""
      · subst hs
        simpa [strFold, firstNonEmpty] using ih ""
      · have : strFold (s :: t) "" = strFold t s := by simp [strFold, hs]
        rw [this, ih s]
        simp [hs, firstNonEmpty, List.find?_cons]
    · have : strFold (s :: t) acc = strFold t acc := by simp [strFold, hacc]
      rw [this, ih acc]
      simp [hacc]

lemma foldl_mergeStep (l : List AnalysisResult) :
    ∀ acc : MergeAcc,
      l.foldl mergeStep acc =
        { key_claims := acc.key_claims ++ (l.map (·.key_claims)).flatten
          metrics_and_results :=
            l.foldl (fun d a => dictUpdate d a.metrics_and_results) acc.metrics_and_results
          methodology_summary := strFold (l.map (·.methodology_summary)) acc.methodology_summary
          mathematical_derivations :=
            acc.mathematical_derivations ++ (l.map (·.mathematical_derivations)).flatten
          tldr := strFold (l.map (·.tldr)) acc.tldr
          eli5 := strFold (l.map (·.eli5)) acc.eli5 } := by
  induction l with
  | nil => intro acc; simp [strFold]
  | cons a t ih =>
    intro acc
    rw [List.foldl_cons, ih (mergeStep acc a)]
    simp [mergeStep, strFold]

lemma dedupKeepFirst_go (xs : List String) :
    ∀ acc : List String,
      xs.foldl (fun acc x => if x ∈ acc then acc else acc ++ [x]) acc =
        acc ++ keepFirst (xs.filter (fun y => y ∉ acc)) := by
  induction xs with
  | nil => intro acc; simp [keepFirst]
  | cons x t ih =>
    intro acc
    rw [List.foldl_cons]
    by_cases hx : x ∈ acc
    · rw [if_pos hx, ih acc]
      simp [hx]
    · rw [if_neg hx, ih (acc ++ [x])]
      have hfil : t.filter (fun y => decide (y ∉ acc ++ [x])) =
          (t.filter (fun y => decide (y ∉ acc))).filter (fun y => decide (y ≠ x)) := by
        rw [List.filter_filter]
        apply List.filter_congr
        intro b _
        by_cases hb1 : b ∈ acc <;> by_cases hb2 : b = x <;>
          simp [hb1, hb2, List.mem_append]
      have : (x :: t).filter (fun y => decide (y ∉ acc)) =
          x :: t.filter (fun y => decide (y ∉ acc)) := by
        simp [List.filter_cons, hx]
      rw [this, keepFirst, ← hfil]
      simp

lemma dedupKeepFirst_eq_keepFirst (xs : List String) :
    dedupKeepFirst xs = keepFirst xs := by
  have := dedupKeepFirst_go xs []
  simpa [dedupKeepFirst] using this

lemma keepFirst_of_nodup (xs : List String) (h : xs.Nodup) : keepFirst xs = xs := by
  induction xs with
  | nil => simp [keepFirst]
  | cons x t ih =>
    rw [keepFirst]
    rw [List.nodup_cons] at h
    have hfil : t.filter (fun y => decide (y ≠ x)) = t :=
      List.filter_eq_self.mpr (fun b hb => by
        simp only [decide_eq_true_eq]
        intro hbx
        exact h.1 (hbx ▸ hb))
    rw [hfil, ih h.2]

lemma dictGet_dictSet (d : List (String × String)) (k k' v : String) :
    dictGet k (dictSet d k' v) = if k = k' then some v else dictGet k d := by
  induction d with
  | nil =>
    by_cases h : k = k'
    · simp [dictSet, dictGet, h]
    · have h' : ¬ k' = k := fun hh => h hh.symm
      simp [dictSet, dictGet, h, h']
  | cons p t ih =>
    by_cases hp : p.1 = k'
    · by_cases hk : k = k'
      · simp [dictSet, dictGet, hp, hk]
      · have h1 : ¬ k' = k := fun hh => hk hh.symm
        have h2 : ¬ p.1 = k := fun hh => hk (hh.symm.trans hp)
        simp [dictSet, dictGet, hp, hk, h1, h2]
    · by_cases hpk : p.1 = k
      · have hk : ¬ k = k' := fun hh => hp (hpk.trans hh)
        simp [dictSet, dictGet, hp, hpk, hk]
      · simp [dictSet, dictGet, hp, hpk, ih]

lemma dictGet_eq_none_of_not_mem (k : String) (m : List (String × String))
    (h : k ∉ m.map Prod.fst) : dictGet k m = none := by
  induction m with
  | nil => simp [dictGet]
  | cons p t ih =>
    simp only [List.map_cons, List.mem_cons, not_or] at h
    have : p.1 ≠ k := fun hh => h.1 hh.symm
    simp [dictGet, this, ih h.2]

lemma dictGet_dictUpdate (k : String) (m : List (String × String))
    (hm : (m.map Prod.fst).Nodup) :
    ∀ d, dictGet k (dictUpdate d m) = (dictGet k m).or (dictGet k d) := by
  induction m with
  | nil => intro d; simp [dictUpdate, dictGet]
  | cons p t ih =>
    intro d
    simp only [List.map_cons, List.nodup_cons] at hm
    have step : dictUpdate d (p :: t) = dictUpdate (dictSet d p.1 p.2) t := by
      simp [dictUpdate]
    rw [step, ih hm.2, dictGet_dictSet]
    by_cases hk : k = p.1
    · have ht : dictGet k t = none :=
        dictGet_eq_none_of_not_mem k t (by rw [hk]; exact hm.1)
      rw [ht]
      simp [dictGet, hk, Option.or]
    · have hpk : p.1 ≠ k := fun h => hk h.symm
      simp [dictGet, hpk, hk]

lemma dictSet_of_not_mem (d : List (String × String)) (k v : String)
    (h : dictGet k d = none) : dictSet d k v = d ++ [(k, v)] := by
  induction d with
  | nil => simp [dictSet]
  | cons p t ih =>
    by_cases hp : p.1 = k
    · simp [dictGet, hp] at h
    · simp only [dictGet, hp, if_neg, ite_false] at h
      simp [dictSet, hp, ih h]

lemma dictGet_append (k : String) (d1 d2 : List (String × String)) :
    dictGet k (d1 ++ d2) = (dictGet k d1).or (dictGet k d2) := by
  induction d1 with
  | nil => simp [dictGet]
  | cons p t ih =>
    by_cases hp : p.1 = k <;> simp [dictGet, hp, ih]

lemma dictUpdate_eq_append (m : List (String × String))
    (hm : (m.map Prod.fst).Nodup) :
    ∀ d, (∀ k ∈ m.map Prod.fst, dictGet k d = none) → dictUpdate d m = d ++ m := by
  induction m with
  | nil => intro d _; simp [dictUpdate]
  | cons p t ih =>
    intro d hd
    simp only [List.map_cons, List.nodup_cons] at hm
    have step : dictUpdate d (p :: t) = dictUpdate (dictSet d p.1 p.2) t := by
      simp [dictUpdate]
    have hset : dictSet d p.1 p.2 = d ++ [(p.1, p.2)] :=
      dictSet_of_not_mem d p.1 p.2 (hd p.1 (by simp))
    rw [step, hset, ih hm.2 (d ++ [(p.1, p.2)]) ?_]
    · simp
    · intro k hk
      rw [dictGet_append]
      have h1 : dictGet k d = none := hd k (by simp [hk])
      have h2 : p.1 ≠ k := by
        intro h
        exact hm.1 (h ▸ hk)
      simp [h1, dictGet, h2]

lemma getLast?_cons_or :
    ∀ (l : List α) (a : α), (a :: l).getLast? = l.getLast?.or (some a) := by
  intro l
  induction l with
  | nil => intro a; simp
  | cons b t ih =>
    intro a
    rw [List.getLast?_cons_cons, ih b]
    cases h : t.getLast? <;> simp [Option.or]

lemma or_assoc' (x y z : Option α) : (x.or y).or z = x.or (y.or z) := by
  cases x <;> cases y <;> simp

lemma foldl_dictUpdate_getLast (k : String) (l : List AnalysisResult)
    (hm : ∀ a ∈ l, (a.metrics_and_results.map Prod.fst).Nodup) :
    ∀ acc, dictGet k (l.foldl (fun d a => dictUpdate d a.metrics_and_results) acc) =
      ((l.filterMap (fun a => dictGet k a.metrics_and_results)).getLast?).or
        (dictGet k acc) := by
  induction l with
  | nil => intro acc; simp
  | cons a t ih =>
    intro acc
    have hma : (a.metrics_and_results.map Prod.fst).Nodup := hm a (by simp)
    have hmt : ∀ b ∈ t, (b.metrics_and_results.map Prod.fst).Nodup :=
      fun b hb => hm b (by simp [hb])
    rw [List.foldl_cons, ih hmt, dictGet_dictUpdate k _ hma]
    rw [List.filterMap_cons]
    cases hga : dictGet k a.metrics_and_results with
    | none => simp [hga]
    | some v =>
      rw [getLast?_cons_or, or_assoc']

/-- C4.  The local-merge fallback of `consolidate_analyses` returns an
`AnalysisResult` whose claim and derivation lists are the inputs'
lists concatenated in input order with exact-string duplicates removed
keeping the first occurrence, whose summary fields are the first
non-empty value in input order, whose metrics map binds each key to the
value of the last (rightmost) analysis binding it, and which merges
overlapping claims `["x","y"]` and `["y","z"]` to `["x","y","z"]`.
The metrics part assumes each input's metrics keys are duplicate-free,
the invariant of the Python dicts they embed. -/
theorem C4_consolidate_fallback_merge_semantics :
    (∀ l : List AnalysisResult,
       (localMerge l).key_claims = keepFirst (l.map (·.key_claims)).flatten ∧
       (localMerge l).mathematical_derivations =
         keepFirst (l.map (·.mathematical_derivations)).flatten ∧
       (localMerge l).methodology_summary = firstNonEmpty (l.map (·.methodology_summary)) ∧
       (localMerge l).tldr = firstNonEmpty (l.map (·.tldr)) ∧
       (localMerge l).eli5 = firstNonEmpty (l.map (·.eli5))) ∧
    (∀ (l : List AnalysisResult) (k : String),
       (∀ a ∈ l, (a.metrics_and_results.map Prod.fst).Nodup) →
       dictGet k (localMerge l).metrics_and_results =
         (l.filterMap (fun a => dictGet k a.metrics_and_results)).getLast?) ∧
    (∀ a1 a2 : AnalysisResult,
       a1.key_claims = ["x", "y"] → a2.key_claims = ["y", "z"] →
       (localMerge [a1, a2]).key_claims = ["x", "y", "z"]) := by
  refine ⟨?_, ?_, ?_⟩
  · intro l
    simp [localMerge, foldl_mergeStep, dedupKeepFirst_eq_keepFirst, strFold_eq]
  · intro l k hm
    have h1 : (localMerge l).metrics_and_results =
        l.foldl (fun d a => dictUpdate d a.metrics_and_results) [] := by
      simp [localMerge, foldl_mergeStep]
    rw [h1, foldl_dictUpdate_getLast k l hm []]
    cases (l.filterMap (fun a => dictGet k a.metrics_and_results)).getLast? <;>
      simp [dictGet, Option.or]
  · intro a1 a2 h1 h2
    have hkc : (localMerge [a1, a2]).key_claims =
        dedupKeepFirst (a1.key_claims ++ a2.key_claims) := by
      simp [localMerge, mergeStep]
    rw [hkc, h1, h2]
    decide

/-- Sample analysis used to witness the consolidation claims. -/
def demoA1 : AnalysisResult :=
  { key_claims := ["x", "y"]
    metrics_and_results := [("accuracy", "91")]
    methodology_summary := ""
    mathematical_derivations := ["d1"]
    tldr := "t1"
    eli5 := "" }

/-- Second sample analysis used to witness the consolidation claims. -/
def demoA2 : AnalysisResult :=
  { key_claims := ["y", "z"]
    metrics_and_results := [("accuracy", "95"), ("f1", "0.8")]
    methodology_summary := "m2"
    mathematical_derivations := ["d1", "d2"]
    tldr := ""
    eli5 := "e2" }

/-- Witness for C4: merging the two overlapping sample analyses
produces claims `["x","y","z"]` and the later metrics binding for
`accuracy` wins. -/
theorem C4_consolidate_fallback_merge_semantics_witness :
    (localMerge [demoA1, demoA2]).key_claims = ["x", "y", "z"] ∧
    dictGet "accuracy" (localMerge [demoA1, demoA2]).metrics_and_results = some "95" := by
  constructor
  · exact C4_consolidate_fallback_merge_semantics.2.2 demoA1 demoA2 rfl rfl
  · rw [C4_consolidate_fallback_merge_semantics.2.1 [demoA1, demoA2] "accuracy"
      (by intro a ha; fin_cases ha <;> decide)]
    decide

/-- C10.  On a singleton input whose claim and derivation lists are
duplicate-free, the local-merge fallback is the identity.  (The third
hypothesis is the invariant of the Python metrics dict: its keys are
duplicate-free by construction.) -/
theorem C10_local_merge_identity_on_singletons (a : AnalysisResult)
    (h1 : a.key_claims.Nodup) (h2 : a.mathematical_derivations.Nodup)
    (h3 : (a.metrics_and_results.map Prod.fst).Nodup) :
    localMerge [a] = a := by
  obtain ⟨kc, mr, ms, md, tl, e5⟩ := a
  simp only at h1 h2 h3
  have hmr : dictUpdate [] mr = mr := by
    simpa using dictUpdate_eq_append mr h3 [] (fun k _ => rfl)
  have hkc : dedupKeepFirst kc = kc := by
    rw [dedupKeepFirst_eq_keepFirst, keepFirst_of_nodup _ h1]
  have hmd : dedupKeepFirst md = md := by
    rw [dedupKeepFirst_eq_keepFirst, keepFirst_of_nodup _ h2]
  have hstr : ∀ s : String, (if s ≠ "" then s else "") = s := by
    intro s
    by_cases h : s = "" <;> simp [h]
  simp [localMerge, mergeStep, hmr, hkc, hmd, hstr]

/-- Witness for C10 at a concrete duplicate-free analysis. -/
theorem C10_local_merge_identity_on_singletons_witness :
    localMerge
        [{ key_claims := ["c1", "c2"]
           metrics_and_results := [("accuracy", "91"), ("loss", "0.1")]
           methodology_summary := "m"
           mathematical_derivations := ["d"]
           tldr := ""
           eli5 := "e" }] =
      { key_claims := ["c1", "c2"]
        metrics_and_results := [("accuracy", "91"), ("loss", "0.1")]
        methodology_summary := "m"
        mathematical_derivations := ["d"]
        tldr := ""
        eli5 := "e" } :=
  C10_local_merge_identity_on_singletons _ (by decide) (by decide) (by decide)

/-! ## Synthesize stage (`agents/synthesizer_agent.py`)

`SynthesizerAgent.run` formats `analysis_text` and `critique_text`
first, outside the `try`; only the LLM call (`self._call_llm(...)` and
reading `message.content[0].text`) is inside the `try`, whose `except`
returns the basic fallback report built from the two formatted texts and
the error.  Formatting a critique source accesses `s['title']`
(a `KeyError` when the dict has no such key) while the URL uses
`s.get('url', 'N/A')`. -/

/-- Python `chr(10).join(...)`. -/
def joinLines (l : List String) : String := String.intercalate "\n" l

/-- The `analysis_text` f-string of `SynthesizerAgent.run`. -/
def formatAnalysisText (a : AnalysisResult) : String :=
  "\nKey Claims:\n" ++ joinLines (a.key_claims.map (fun claim => "- " ++ claim))
    ++ "\n\nMetrics and Results:\n"
    ++ joinLines (a.metrics_and_results.map (fun p => "- " ++ p.1 ++ ": " ++ p.2))
    ++ "\n\nMethodology Summary:\n" ++ a.methodology_summary
    ++ "\n\nMathematical Derivations:\n"
    ++ (if a.mathematical_derivations.isEmpty then "None"
        else joinLines (a.mathematical_derivations.map (fun deriv => "- " ++ deriv)))
    ++ "\n\nTL;DR: " ++ a.tldr
    ++ "\n\nELI5: " ++ a.eli5 ++ "\n"

/-- One source line `f"- {s['title']} ({s.get('url', 'N/A')})"`: raises
`KeyError` when the source dict has no `title` key. -/
def formatSourceLine (s : List (String × String)) : Except String String :=
  match dictGet "title" s with
  | none => .error "KeyError: 'title'"
  | some t => .ok ("- " ++ t ++ " (" ++ (dictGet "url" s).getD "N/A" ++ ")")

/-- Source lines joined left to right; the first missing title raises. -/
def formatSourceLines : List (List (String × String)) → Except String (List String)
  | [] => .ok []
  | s :: t =>
    match formatSourceLine s with
    | .error e => .error e
    | .ok line =>
      match formatSourceLines t with
      | .error e => .error e
      | .ok rest => .ok (line :: rest)

/-- The `critique_text` f-string of `SynthesizerAgent.run` (the branch
taken when a critique is present). -/
def formatCritiqueText (c : Critique) : Except String String :=
  match formatSourceLines c.corroborating_sources with
  | .error e => .error e
  | .ok cor =>
    match formatSourceLines c.conflicting_sources with
    | .error e => .error e
    | .ok con =>
      .ok ("\nCorroborating Sources (" ++ toString c.corroborating_sources.length
        ++ "):\n" ++ joinLines cor
        ++ "\n\nConflicting Sources (" ++ toString c.conflicting_sources.length
        ++ "):\n" ++ joinLines con
        ++ "\n\nSynthesis: " ++ c.synthesis ++ "\n")

/-- Value of `critique_text` for an optional critique: the placeholder
when absent, the formatted text (which may raise) when present. -/
def critiqueTextOf : Option Critique → Except String String
  | none => .ok "No external validation performed."
  | some c => formatCritiqueText c

/-- Constant `SYNTHESIZER_SYSTEM_PROMPT` from `agents/prompts.py`. -/
def synthesizerSystemPrompt : String :=
  "You are an expert research synthesizer tasked with creating comprehensive final reports.\n\nYour role is to:\n1. Integrate the analysis results with external validation findings\n2. Create a well-structured, readable report\n3. Highlight key contributions and limitations\n4. Provide actionable insights\n\nFormat the report in clear Markdown with appropriate sections."

/-- Template `SYNTHESIZER_USER_PROMPT.format(analysis=..., critique=...)`. -/
def synthesizerUserPrompt (analysis_text critique_text : String) : String :=
  "Create a comprehensive final report based on:\n\n## Analysis Results:\n" ++ analysis_text
    ++ "\n\n## External Validation:\n" ++ critique_text
    ++ "\n\nGenerate a well-structured report that synthesizes all findings."

/-- Fixed heading of the fallback report, up to the analysis text. -/
def fallbackHeader : String :=
  "# Research Paper Analysis Report\n\n## Summary\nAn error occurred during synthesis. Below is the raw analysis data:\n\n## Analysis Results\n"

/-- Fixed middle of the fallback report, between analysis and critique. -/
def fallbackMiddle : String := "\n\n## External Validation\n"

/-- Fixed heading of the fallback report's error section. -/
def fallbackErrorHeader : String :=
  "\n\n## Error Details\nFailed to generate comprehensive report: "

/-- The basic report built by the `except` branch of
`SynthesizerAgent.run`. -/
def fallbackReport (analysis_text critique_text err : String) : String :=
  fallbackHeader ++ analysis_text
    ++ fallbackMiddle ++ critique_text
    ++ fallbackErrorHeader ++ err ++ "\n"

/-- Method `SynthesizerAgent.run`: format the two texts (outside the
`try`, so a formatting error propagates), then try the retried LLM
call, returning its text, or the basic fallback report on any error
raised inside the `try`. -/
def synthesizerRun (analysis : AnalysisResult) (critique : Option Critique)
    (llm : String → String → Except String String) : Except String String :=
  let analysis_text := formatAnalysisText analysis
  match critiqueTextOf critique with
  | .error e => .error e
  | .ok critique_text =>
    match llm synthesizerSystemPrompt (synthesizerUserPrompt analysis_text critique_text) with
    | .ok final_report => .ok final_report
    | .error e => .ok (fallbackReport analysis_text critique_text e)

/-- Sample analysis used in the synthesizer counterexample. -/
def synthDemoAnalysis : AnalysisResult :=
  { key_claims := ["claim"]
    metrics_and_results := []
    methodology_summary := "m"
    mathematical_derivations := []
    tldr := "t"
    eli5 := "e" }

/-- Counterexample to C6 as stated: a critique whose source dict has a
`url` key but no `title` key makes `SynthesizerAgent.run` raise
(`s['title']` is evaluated before the `try`), so not every error raised
during the Synthesize stage yields the fallback report — this one
propagates to the caller. -/
theorem C6_synthesize_counterexample :
    synthesizerRun synthDemoAnalysis
        (some { corroborating_sources := [[("url", "http://example.org")]]
                conflicting_sources := []
                synthesis := "s" })
        (fun _ _ => .error "anthropic.APIError") =
      .error "KeyError: 'title'" := rfl

lemma str_infix_middle (x y z : String) : y.data <:+: (x ++ y ++ z).data :=
  ⟨x.data, z.data, by simp [String.data_append]⟩

/-- C6 amended.  Synthesize formats the analysis and critique texts
before its `try`: every error raised by the retried remote call is
swallowed and the stage returns the deterministic fallback report, which
embeds the formatted analysis text, the formatted critique text and the
error message; but an error raised while formatting the critique (a
source entry without a `title` key) is raised before the `try` and
propagates to the caller. -/
theorem C6_synthesize_fallback_on_call_error (analysis : AnalysisResult)
    (critique : Option Critique) (llm : String → String → Except String String) :
    (∀ critique_text e,
       critiqueTextOf critique = .ok critique_text →
       llm synthesizerSystemPrompt
           (synthesizerUserPrompt (formatAnalysisText analysis) critique_text) =
         .error e →
       synthesizerRun analysis critique llm =
         .ok (fallbackReport (formatAnalysisText analysis) critique_text e) ∧
       (formatAnalysisText analysis).data <:+:
         (fallbackReport (formatAnalysisText analysis) critique_text e).data ∧
       critique_text.data <:+:
         (fallbackReport (formatAnalysisText analysis) critique_text e).data ∧
       e.data <:+:
         (fallbackReport (formatAnalysisText analysis) critique_text e).data) ∧
    (∀ e, critiqueTextOf critique = .error e →
       synthesizerRun analysis critique llm = .error e) := by
  constructor
  · intro critique_text e hct hllm
    refine ⟨by simp [synthesizerRun, hct, hllm], ?_, ?_, ?_⟩
    · have h := str_infix_middle fallbackHeader (formatAnalysisText analysis)
        (fallbackMiddle ++ critique_text ++ fallbackErrorHeader ++ e ++ "\n")
      simp only [fallbackReport, String.data_append, List.append_assoc] at h ⊢
      exact h
    · have h := str_infix_middle (fallbackHeader ++ formatAnalysisText analysis ++ fallbackMiddle)
        critique_text (fallbackErrorHeader ++ e ++ "\n")
      simpa [fallbackReport, String.data_append, List.append_assoc] using h
    · have h := str_infix_middle
        (fallbackHeader ++ formatAnalysisText analysis ++ fallbackMiddle ++ critique_text
          ++ fallbackErrorHeader) e "\n"
      simpa [fallbackReport, String.data_append, List.append_assoc] using h
  · intro e he
    simp [synthesizerRun, he]

/-- Witness for C6 amended: a concrete failing LLM call on a critique
whose sources all carry titles produces the fallback report. -/
theorem C6_synthesize_fallback_on_call_error_witness :
    synthesizerRun synthDemoAnalysis
        (some { corroborating_sources := [[("title", "T"), ("url", "u")]]
                conflicting_sources := []
                synthesis := "s" })
        (fun _ _ => .error "RetriesExhausted") =
      .ok (fallbackReport (formatAnalysisText synthDemoAnalysis)
        ("\nCorroborating Sources (1):\n- T (u)\n\nConflicting Sources (0):\n\n\nSynthesis: s\n")
        "RetriesExhausted") := by
  exact ((C6_synthesize_fallback_on_call_error synthDemoAnalysis
      (some { corroborating_sources := [[("title", "T"), ("url", "u")]]
              conflicting_sources := []
              synthesis := "s" })
      (fun _ _ => .error "RetriesExhausted")).1
    "\nCorroborating Sources (1):\n- T (u)\n\nConflicting Sources (0):\n\n\nSynthesis: s\n"
    "RetriesExhausted" rfl rfl).1

/-! ## Critique stage (`agents/critic_agent.py`)

`CriticAgent.run(analysis)` opens with
`logging.info(f"CriticAgent: Evaluating analysis for {analysis.metadata.title}")`.
The f-string is evaluated eagerly, and `shared_types.AnalysisResult`
declares no field `metadata`, so the attribute access raises
`AttributeError` on that line — before the `try/except/finally` that
scopes the remote desktop instance begins, so the `finally`'s
`self.executor.destroy()` is never reached.  (The orchestrator's call
site compounds this: it calls `self.critic_agent.run(state.analysis,
state.metadata)` with a second positional argument that `run` does not
accept, a `TypeError` raised before the body runs at all.)

The body after that line is embedded too, with remote desktop and LLM
interactions as per-step oracles, to record that the `try/finally`
would release the instance exactly once had it been reached. -/

/-- Attribute access `analysis.metadata` in `CriticAgent.run`:
`AnalysisResult` has no such field, so Python raises for every input. -/
def analysisMetadataAttr (_analysis : AnalysisResult) : Except String PaperMetadata :=
  .error "AttributeError: 'AnalysisResult' object has no attribute 'metadata'"

/-- Observable outcome of one iteration of the per-claim search loop:
either the screenshot call raises (propagating to the whole-stage
handler), or the AgentS2 prediction yields a completion signal
(whether `info` contains "task complete" or "done"), an optional action
string, and — when the action is executed — whether `executor.exec`
raised (an error that is logged and the loop continues). -/
inductive StepEvent where
  | screenshotError (e : String)
  | predict (complete : Bool) (action : Option String) (execRaised : Bool)
deriving Repr, DecidableEq

/-- Oracle for the processing of a single claim: the event of each loop
step, the final screenshot, and the outcome of the summarizing LLM call
plus its lenient JSON parse (corroborating, conflicting, synthesis). -/
structure ClaimOracle where
  events : Nat → StepEvent
  finalScreenshot : Except String Unit
  summary :
    Except String
      (List (List (String × String)) × List (List (String × String)) × String)

/-- The `while step_count < max_steps and not task_complete` loop for
one claim, from step index `step` with `fuel` steps remaining.  A
screenshot error propagates; an execution error is caught and the loop
continues; a completion signal or an absent action ends the loop. -/
def claimLoop (ev : Nat → StepEvent) : Nat → Nat → Except String Unit
  | _, 0 => .ok ()
  | step, fuel + 1 =>
    match ev step with
    | .screenshotError e => .error e
    | .predict complete action _execRaised =>
      if complete then .ok ()
      else
        match action with
        | none => .ok ()
        | some _ => claimLoop ev (step + 1) fuel

/-- Accumulated critique data: the two source lists and the running
`synthesis_text`. -/
structure CritiqueAcc where
  corroborating : List (List (String × String)) := []
  conflicting : List (List (String × String)) := []
  synthesis_text : String := ""

/-- Processing of one claim inside the `try`: run the bounded loop
(`max_steps = 5`), take the final screenshot (an error propagates to the
whole-stage handler), then summarize; a summarization error is caught
and appends an explanatory note instead. -/
def processClaim (o : ClaimOracle) (claim : String) (acc : CritiqueAcc) :
    Except String CritiqueAcc :=
  match claimLoop o.events 0 5 with
  | .error e => .error e
  | .ok _ =>
    match o.finalScreenshot with
    | .error e => .error e
    | .ok _ =>
      match o.summary with
      | .ok (cor, con, syn) =>
        .ok { corroborating := acc.corroborating ++ cor
              conflicting := acc.conflicting ++ con
              synthesis_text := acc.synthesis_text
                ++ "\nAnalysis for claim \"" ++ claim ++ "\": " ++ syn }
      | .error _ =>
        .ok { acc with
              synthesis_text := acc.synthesis_text
                ++ "\nCould not analyze search results for claim \"" ++ claim
                ++ "\" due to an error." }

/-- The `for claim in analysis.key_claims` loop of `CriticAgent.run`,
claim `i` processed under oracle `oracles i`. -/
def claimsLoop (oracles : Nat → ClaimOracle) :
    List String → Nat → CritiqueAcc → Except String CritiqueAcc
  | [], _, acc => .ok acc
  | claim :: rest, i, acc =>
    match processClaim (oracles i) claim acc with
    | .error e => .error e
    | .ok acc' => claimsLoop oracles rest (i + 1) acc'

/-- Body of `CriticAgent.run` from the `try` on: the claim loop inside
`try`, the `except` returning an error `Critique`, and the `finally`
invoking `self.executor.destroy()` exactly once.  Returns the critique
together with the number of `destroy` invocations. -/
def criticRunBody (oracles : Nat → ClaimOracle) (claims : List String) :
    Critique × Nat :=
  match claimsLoop oracles claims 0 {} with
  | .ok acc =>
    ({ corroborating_sources := acc.corroborating
       conflicting_sources := acc.conflicting
       synthesis := acc.synthesis_text.trim }, 1)
  | .error e =>
    ({ corroborating_sources := []
       conflicting_sources := []
       synthesis := "Error during external validation: " ++ e }, 1)

/-- Method `CriticAgent.run`: the opening `logging.info` f-string
dereferences `analysis.metadata` and raises before the
`try/except/finally` is entered, so the body — and with it the
`finally` that destroys the remote desktop instance — is never reached.
Returns the stage outcome together with the number of `destroy`
invocations. -/
def criticRun (analysis : AnalysisResult) (oracles : Nat → ClaimOracle) :
    Except String Critique × Nat :=
  match analysisMetadataAttr analysis with
  | .error e => (.error e, 0)
  | .ok _meta =>
    let r := criticRunBody oracles analysis.key_claims
    (.ok r.1, r.2)

/-- C2 (refuted; the code diverges from it).  For every invocation of
the Critique stage — whatever the analysis and however the remote
desktop interactions would behave — the destroy operation is invoked
zero times, not exactly once: the stage raises `AttributeError` at its
opening log statement, before the `try/finally` that releases the
instance. -/
theorem C2_critique_destroy_never_invoked
    (analysis : AnalysisResult) (oracles : Nat → ClaimOracle) :
    (criticRun analysis oracles).2 = 0 ∧
    (criticRun analysis oracles).1 =
      .error "AttributeError: 'AnalysisResult' object has no attribute 'metadata'" := by
  exact ⟨rfl, rfl⟩

/-! ## Per-paper pipeline (`research_orchestrator.py`, `_process_single_paper`)

The control-flow skeleton of `_process_single_paper`: each stage call's
outcome is a parameter (the ensemble of step 2 is total and does not
touch the state, so only the four state-writing stages appear).  The
`try` around extraction covers both the assignment
`state.structured_content = self.extractor_agent.run(...)` and the
`raise ValueError` on a falsy result, and its `except` returns the
state; a consolidation error returns the state; a critic error
continues without critique; a synthesizer error leaves `final_report`
unset. -/

/-- Outcomes of the four state-writing stage calls for one paper. -/
structure StageOutcomes where
  extract : Except String (Option StructuredContent)
  consolidate : Except String AnalysisResult
  critiqueStage : Except String Critique
  synthesize : Except String String

/-- Method `_process_single_paper`, as a function of the stage
outcomes: the returned `PaperAnalysisState`. -/
def processSinglePaper (meta : PaperMetadata) (o : StageOutcomes) :
    PaperAnalysisState :=
  let s0 : PaperAnalysisState := { metadata := meta }
  match o.extract with
  | .error _ => s0
  | .ok sc =>
    let s1 := { s0 with structured_content := sc }
    if sc.isSome then
      match o.consolidate with
      | .error _ => s1
      | .ok a =>
        let s2 := { s1 with analysis := some a }
        let s3 :=
          match o.critiqueStage with
          | .error _ => s2
          | .ok c => { s2 with critique := some c }
        match o.synthesize with
        | .error _ => s3
        | .ok r => { s3 with final_report := some r }
    else s1

/-- Successive values of `state` in `_process_single_paper`: the
initial state and the state after each stage's `try` block. -/
def pipelineTrace (meta : PaperMetadata) (o : StageOutcomes) :
    List PaperAnalysisState :=
  let s0 : PaperAnalysisState := { metadata := meta }
  match o.extract with
  | .error _ => [s0, s0]
  | .ok sc =>
    let s1 := { s0 with structured_content := sc }
    if sc.isSome then
      match o.consolidate with
      | .error _ => [s0, s1, s1]
      | .ok a =>
        let s2 := { s1 with analysis := some a }
        let s3 :=
          match o.critiqueStage with
          | .error _ => s2
          | .ok c => { s2 with critique := some c }
        let s4 :=
          match o.synthesize with
          | .error _ => s3
          | .ok r => { s3 with final_report := some r }
        [s0, s1, s2, s3, s4]
    else [s0, s1]

/-- A field already set to a non-null value keeps exactly that value. -/
def optionPreserved (x y : Option α) : Prop := x = none ∨ y = x

/-- No later state clears or overwrites a field the earlier state had
set (and the metadata never changes). -/
def noFieldClearedOrOverwritten (s t : PaperAnalysisState) : Prop :=
  t.metadata = s.metadata ∧
  optionPreserved s.structured_content t.structured_content ∧
  optionPreserved s.analysis t.analysis ∧
  optionPreserved s.critique t.critique ∧
  optionPreserved s.final_report t.final_report

/-- One stage transition either leaves the state unchanged or sets a
single still-null field, leaving every other field as it was. -/
def setsAtMostNextField (s t : PaperAnalysisState) : Prop :=
  t = s ∨
  (s.structured_content = none ∧
    t = { s with structured_content := t.structured_content }) ∨
  (s.analysis = none ∧ t = { s with analysis := t.analysis } ∧ t.analysis.isSome) ∨
  (s.critique = none ∧ t = { s with critique := t.critique } ∧ t.critique.isSome) ∨
  (s.final_report = none ∧ t = { s with final_report := t.final_report } ∧
    t.final_report.isSome)

/-- C9.  In every execution of the per-paper pipeline — whatever each
stage's outcome — the successive states never clear or overwrite a
field set to a non-null value (pairwise along the whole run), each step
sets at most the next still-null field, and the last traced state is
the returned one. -/
theorem C9_state_fields_monotone (meta : PaperMetadata) (o : StageOutcomes) :
    List.Pairwise noFieldClearedOrOverwritten (pipelineTrace meta o) ∧
    List.Chain' setsAtMostNextField (pipelineTrace meta o) ∧
    (pipelineTrace meta o).getLast? = some (processSinglePaper meta o) := by
  obtain ⟨ext, cons, crit, synth⟩ := o
  cases ext with
  | error e =>
    simp [pipelineTrace, processSinglePaper, noFieldClearedOrOverwritten,
      optionPreserved, setsAtMostNextField]
  | ok sc =>
    cases sc with
    | none =>
      simp [pipelineTrace, processSinglePaper, noFieldClearedOrOverwritten,
        optionPreserved, setsAtMostNextField]
    | some content =>
      cases cons with
      | error e =>
        simp [pipelineTrace, processSinglePaper, noFieldClearedOrOverwritten,
          optionPreserved, setsAtMostNextField]
      | ok a =>
        cases crit with
        | error e =>
          cases synth with
          | error e' =>
            simp [pipelineTrace, processSinglePaper, noFieldClearedOrOverwritten,
              optionPreserved, setsAtMostNextField]
          | ok r =>
            simp [pipelineTrace, processSinglePaper, noFieldClearedOrOverwritten,
              optionPreserved, setsAtMostNextField]
        | ok c =>
          cases synth with
          | error e' =>
            simp [pipelineTrace, processSinglePaper, noFieldClearedOrOverwritten,
              optionPreserved, setsAtMostNextField]
          | ok r =>
            simp [pipelineTrace, processSinglePaper, noFieldClearedOrOverwritten,
              optionPreserved, setsAtMostNextField]

/-- Concrete paper metadata used in pipeline and run-level theorems. -/
def demoMeta : PaperMetadata :=
  { title := "Attention Is All You Need"
    authors := ["Ashish Vaswani"]
    abstract := "We propose the Transformer."
    arxiv_id := "1706.03762"
    pdf_url := "http://arxiv.org/pdf/1706.03762" }

/-- Concrete extracted content used in pipeline and run-level theorems. -/
def demoContent : StructuredContent :=
  { abstract := "We propose the Transformer."
    introduction := "Recurrent models..."
    methodology := "Self-attention."
    results := "28.4 BLEU."
    conclusion := "Attention suffices."
    full_text := "full text" }

/-- The persona list `self.analyst_personas` of `ResearchOrchestrator`. -/
def analystPersonas : List String :=
  ["The Skeptic", "The Proponent", "The Pragmatist", "The Formalist", "The Strategist"]

/-- C1 (refuted; the code diverges from it).  A paper whose Extract
stage succeeds still ends with a null `final_report`: the deployed
consolidation (`consolidate_analyses`) raises
`NameError: name 'json' is not defined` before its internal fallback —
`research_orchestrator.py` never imports `json` — and
`_process_single_paper` catches the error and returns early, even
though the Critique and Synthesize outcomes of this run would have
succeeded.  (Independently, the `except` around the Synthesize call
also leaves `final_report` null when the synthesizer raises.) -/
theorem C1_extract_success_yet_final_report_null :
    (processSinglePaper demoMeta
        { extract := .ok (some demoContent)
          consolidate :=
            consolidateAnalyses (fun _ => .ok "merged analyses")
              (fun _ => .ok analysisFailureResult)
              (analystPersonas.map (fun p =>
                analystRun p demoContent (fun _ _ => .ok "{}")
                  (fun _ => .error "ParseError")))
          critiqueStage :=
            .ok { corroborating_sources := [], conflicting_sources := [],
                  synthesis := "fine" }
          synthesize := .ok "a finished report" }).structured_content
      = some demoContent ∧
    (processSinglePaper demoMeta
        { extract := .ok (some demoContent)
          consolidate :=
            consolidateAnalyses (fun _ => .ok "merged analyses")
              (fun _ => .ok analysisFailureResult)
              (analystPersonas.map (fun p =>
                analystRun p demoContent (fun _ _ => .ok "{}")
                  (fun _ => .error "ParseError")))
          critiqueStage :=
            .ok { corroborating_sources := [], conflicting_sources := [],
                  synthesis := "fine" }
          synthesize := .ok "a finished report" }).final_report = none ∧
    consolidateAnalyses (fun _ => .ok "merged analyses")
        (fun _ => .ok analysisFailureResult)
        (analystPersonas.map (fun p =>
          analystRun p demoContent (fun _ _ => .ok "{}")
            (fun _ => .error "ParseError"))) =
      .error "NameError: name 'json' is not defined" :=
  ⟨rfl, rfl, rfl⟩

/-! ## Run level (`research_orchestrator.py`, `ResearchOrchestrator.run`)

`run` searches for papers ("No papers found." when none), dispatches
`_process_single_paper` per paper, collects every future that did not
raise into `all_analysis_states` ("No analyses were generated." when
that list is empty), and otherwise writes a Markdown report: the fixed
header followed by, for each state whose `final_report` is set, a
`## Paper:` section.  Each future's outcome is a parameter. -/

/-- Result of `ResearchOrchestrator.run`: the two early-return messages
or the markdown written to the report file. -/
inductive RunOutput where
  | noPapers
  | noAnalyses
  | saved (markdown : String)
deriving Repr, DecidableEq

/-- Fixed first line of the aggregated report. -/
def reportHeader : String := "# Consolidated Research Report\n\n"

/-- The three lines appended for one state with a final report. -/
def paperSection (s : PaperAnalysisState) (report : String) : String :=
  "## Paper: " ++ s.metadata.title ++ "\n\n" ++ report ++ "\n\n---\n\n"

/-- The guard `if state.final_report:` of the accumulation loop is
Python truthiness: it skips a null report and an empty-string report
alike, and only otherwise appends the paper's section. -/
def sectionOf (s : PaperAnalysisState) : Option String :=
  match s.final_report with
  | none => none
  | some r => if r = "" then none else some (paperSection s r)

/-- The `final_markdown_output` accumulation loop. -/
def finalMarkdown (states : List PaperAnalysisState) : String :=
  reportHeader ++ String.join (states.filterMap sectionOf)

/-- Method `ResearchOrchestrator.run` as a function of the discovered
papers and each paper future's outcome (`future.result()` value or
raised error). -/
def orchestratorRun (papers_metadata : List PaperMetadata)
    (futures : List (Except String PaperAnalysisState)) : RunOutput :=
  if papers_metadata.isEmpty then .noPapers
  else
    let all_analysis_states := futures.filterMap (fun f => f.toOption)
    if all_analysis_states.isEmpty then .noAnalyses
    else .saved (finalMarkdown all_analysis_states)

/-- Concrete state that succeeded through Extract but has no final
report (what the deployed pipeline produces, by C1's analysis). -/
def demoStateNoReport : PaperAnalysisState :=
  { metadata := demoMeta, structured_content := some demoContent }

/-- Counterexample to C8 as stated: a run with one paper that
succeeded through Extract but has a null `final_report` yields a saved
report that contains no section for that paper (the header alone is too
short to contain the section heading) — and, since a state was
collected, it is a saved report rather than a no-results message even
though zero papers fully succeeded. -/
theorem C8_run_report_counterexample :
    orchestratorRun [demoMeta] [.ok demoStateNoReport] = .saved reportHeader ∧
    demoStateNoReport.structured_content ≠ none ∧
    ¬ (("## Paper: " ++ demoMeta.title).data <:+: reportHeader.data) := by
  refine ⟨by decide, by decide, ?_⟩
  intro h
  have hlen := h.length_le
  revert hlen
  decide

lemma foldl_append_data (L : List String) :
    ∀ s : String, (L.foldl (· ++ ·) s).data =
      s.data ++ (L.map (fun x => x.data)).flatten := by
  induction L with
  | nil => intro s; simp
  | cons a t ih =>
    intro s
    rw [List.foldl_cons, ih (s ++ a)]
    simp [String.data_append]

lemma join_data (L : List String) :
    (String.join L).data = (L.map (fun x => x.data)).flatten := by
  have h : String.join L = L.foldl (· ++ ·) "" := rfl
  rw [h, foldl_append_data]
  rfl

/-- C8 amended.  The saved report contains a `## Paper:` section for
each collected state whose `final_report` is a non-empty string — the
loop's guard is Python truthiness, so papers that succeed through
Extract but fail a later stage (null report) and papers with an
empty-string report alike get no section; the no-results messages are
returned exactly when paper discovery yields no papers ("No papers
found.") or when no per-paper future returned a state ("No analyses
were generated.") — a run with collected states but zero non-empty
final reports saves a report with zero sections instead. -/
theorem C8_run_report_sections_amended :
    (∀ (papers_metadata : List PaperMetadata)
       (futures : List (Except String PaperAnalysisState))
       (s : PaperAnalysisState) (r : String),
       papers_metadata ≠ [] →
       s ∈ futures.filterMap (fun f => f.toOption) →
       s.final_report = some r →
       r ≠ "" →
       ∃ md, orchestratorRun papers_metadata futures = .saved md ∧
         (paperSection s r).data <:+: md.data) ∧
    (∀ futures, orchestratorRun [] futures = .noPapers) ∧
    (∀ papers_metadata futures, papers_metadata ≠ [] →
       futures.filterMap (fun f => f.toOption) = [] →
       orchestratorRun papers_metadata futures = .noAnalyses) := by
  refine ⟨?_, ?_, ?_⟩
  · intro papers futures s r hp hs hr hrne
    have hne : futures.filterMap (fun f => f.toOption) ≠ [] :=
      List.ne_nil_of_mem hs
    refine ⟨finalMarkdown (futures.filterMap (fun f => f.toOption)), ?_, ?_⟩
    · simp [orchestratorRun, List.isEmpty_iff, hp, hne]
    · have hmem : paperSection s r ∈
          (futures.filterMap (fun f => f.toOption)).filterMap sectionOf :=
        List.mem_filterMap.mpr ⟨s, hs, by simp [sectionOf, hr, hrne]⟩
      have h1 : (paperSection s r).data <:+:
          (String.join ((futures.filterMap (fun f => f.toOption)).filterMap
            sectionOf)).data := by
        rw [join_data]
        exact List.infix_of_mem_flatten (List.mem_map_of_mem _ hmem)
      have h2 : (String.join ((futures.filterMap (fun f => f.toOption)).filterMap
            sectionOf)).data <:+:
          (finalMarkdown (futures.filterMap (fun f => f.toOption))).data := by
        rw [finalMarkdown, String.data_append]
        exact (List.suffix_append _ _).isInfix
      exact h1.trans h2
  · intro futures
    simp [orchestratorRun]
  · intro papers futures hp hstates
    simp [orchestratorRun, List.isEmpty_iff, hp, hstates]

/-- Concrete state carrying a final report, for the C8 witness. -/
def demoStateWithReport : PaperAnalysisState :=
  { metadata := demoMeta
    structured_content := some demoContent
    final_report := some "The Transformer dispenses with recurrence." }

/-- Witness for C8 amended: a one-paper run whose state has a
non-empty final report saves a markdown containing that paper's
section. -/
theorem C8_run_report_sections_amended_witness :
    ∃ md, orchestratorRun [demoMeta] [.ok demoStateWithReport] = .saved md ∧
      (paperSection demoStateWithReport
        "The Transformer dispenses with recurrence.").data <:+: md.data :=
  C8_run_report_sections_amended.1 [demoMeta] [.ok demoStateWithReport]
    demoStateWithReport "The Transformer dispenses with recurrence."
    (by simp) (by simp [demoStateWithReport, Except.toOption]) rfl (by decide)

end Cognito
